import Mathlib

/-!
Shallow embedding of the persistent data model in `src/main/models.py`
(a client/plan administration system): person-name derivation shared by
Client, Personnel and ClientBeneficiary; the ClientPlan lifecycle status
enumeration and the derived contestability predicate; the
ClientBeneficiary write-time validation (`clean`); the declared
uniqueness constraints on ClientPlan.contract_no and on
PlanPayment (plan, period); and the append-only lifecycle-event tables.

Database tables are modelled as Lean lists of records; a fallible write
returns `Except String` with the exact `ValidationError` message text of
the source.
-/

namespace HJV

/-- Python truthiness of an optional string field: `None` and the empty
string are falsy (`if self.middle_name:` in `PersonBase.save`). -/
def truthyStr : Option String → Bool
  | none => false
  | some s => !(s == "")

/-- Python `" ".join(parts)`: elements glued with a single space. -/
def joinSpace : List String → String
  | [] => ""
  | [s] => s
  | s :: rest => s ++ " " ++ joinSpace rest

/-- The `parts` list built by `PersonBase.save`: first name, the middle
name when truthy, then the last name. -/
def nameParts (first : String) (middle : Option String) (last : String) : List String :=
  let parts := [first]
  let parts := if truthyStr middle then parts ++ [middle.getD ""] else parts
  parts ++ [last]

/-- `self.full_name = " ".join(parts)` in `PersonBase.save`. -/
def personFullName (first : String) (middle : Option String) (last : String) : String :=
  joinSpace (nameParts first middle last)

/-- Spec-side full name (for refinement comparison), following the spec
words: join first, (optional middle), last name with single spaces,
omitting an empty middle name. -/
def specFullName (first : String) (middle : Option String) (last : String) : String :=
  match middle with
  | none => first ++ " " ++ last
  | some m => if m = "" then first ++ " " ++ last else first ++ " " ++ m ++ " " ++ last

/-- The `Client` model (fields relevant to the name-derivation rules;
reference-data and audit columns omitted). -/
structure Client where
  client_id : Nat
  first_name : String
  middle_name : Option String
  last_name : String
  full_name : String
  birth_date : Nat
  gender : String
  is_active : Bool
deriving DecidableEq, Repr

/-- The `Personnel` model (fields relevant to the name-derivation rules). -/
structure Personnel where
  personnel_id : Nat
  first_name : String
  middle_name : Option String
  last_name : String
  full_name : String
  is_agent : Bool
  is_collector : Bool
  is_employee : Bool
  is_active : Bool
deriving DecidableEq, Repr

/-- `PersonBase.save` specialised to `Client`: recompute `full_name`
from the name parts, leaving every other field unchanged. -/
def Client.save (c : Client) : Client :=
  { c with full_name := personFullName c.first_name c.middle_name c.last_name }

/-- `PersonBase.save` specialised to `Personnel`. -/
def Personnel.save (p : Personnel) : Personnel :=
  { p with full_name := personFullName p.first_name p.middle_name p.last_name }

/-- `ClientPlanStatus` text choices. -/
inductive ClientPlanStatus where
  | active
  | lapsed
  | reinstated
  | transferred
  | assigned
  | cancelled
  | completed
deriving DecidableEq, Repr

/-- The stored string value of each status choice. -/
def ClientPlanStatus.value : ClientPlanStatus → String
  | .active => "active"
  | .lapsed => "lapsed"
  | .reinstated => "reinstated"
  | .transferred => "transferred"
  | .assigned => "assigned"
  | .cancelled => "cancelled"
  | .completed => "completed"

/-- The `ClientPlan` model. Decimal amounts are modelled as integers in
centavos; dates as day numbers. -/
structure ClientPlan where
  client_plan_id : Nat
  client : Nat
  plan : Nat
  agent : Option Nat
  collector : Option Nat
  color : Nat
  branch : Option Nat
  contract_no : String
  application_date : Nat
  effective_date : Nat
  period : Nat
  status : ClientPlanStatus
  total_paid : Int
  balance : Int
  contestability_months : Nat
  months_paid_continuously : Nat
deriving DecidableEq, Repr

/-- `ClientPlan.is_contestable`:
`self.months_paid_continuously < self.contestability_months`. -/
def ClientPlan.is_contestable (cp : ClientPlan) : Bool :=
  decide (cp.months_paid_continuously < cp.contestability_months)

/-- A fresh `ClientPlan` row with the field defaults declared in the
model: `plan=1`, `color=1`, `branch=1`, `period=1`, `status=active`,
`total_paid=0.00`, `balance=0.00`, `contestability_months=10`,
`months_paid_continuously=0`. -/
def mkClientPlan (id client : Nat) (contract : String) (application effective : Nat) : ClientPlan :=
  { client_plan_id := id
    client := client
    plan := 1
    agent := none
    collector := none
    color := 1
    branch := some 1
    contract_no := contract
    application_date := application
    effective_date := effective
    period := 1
    status := ClientPlanStatus.active
    total_paid := 0
    balance := 0
    contestability_months := 10
    months_paid_continuously := 0 }

/-- The `ClientBeneficiary` model (name parts from `PersonBase`, the
owning plan, and the two flag columns with their declared defaults). -/
structure ClientBeneficiary where
  pk : Nat
  client_plan : Nat
  first_name : String
  middle_name : Option String
  last_name : String
  full_name : String
  birth_date : Nat
  gender : String
  age : Option Int
  is_primary : Bool
  is_active : Bool
deriving DecidableEq, Repr

/-- `PersonBase.save` specialised to `ClientBeneficiary`. -/
def ClientBeneficiary.save (b : ClientBeneficiary) : ClientBeneficiary :=
  { b with full_name := personFullName b.first_name b.middle_name b.last_name }

/-- A `ClientBeneficiary` built with the declared field defaults:
`gender="M"`, `age=NULL`, `is_primary=True`, `is_active=True`;
`full_name` is derived on save. -/
def mkClientBeneficiary (pk plan : Nat) (first : String) (middle : Option String)
    (last : String) (birth : Nat) : ClientBeneficiary :=
  { pk := pk
    client_plan := plan
    first_name := first
    middle_name := middle
    last_name := last
    full_name := personFullName first middle last
    birth_date := birth
    gender := "M"
    age := none
    is_primary := true
    is_active := true }

/-- Message of the first `ValidationError` in `ClientBeneficiary.clean`. -/
def maxActiveMsg : String :=
  "A Client Plan can only have a maximum of 2 active beneficiaries."

/-- Message of the second `ValidationError` in `ClientBeneficiary.clean`. -/
def uniquePrimaryMsg : String :=
  "There can only be one active primary beneficiary for a Client Plan."

/-- `ClientBeneficiary.objects.filter(client_plan=self.client_plan,
is_active=True).exclude(pk=self.pk)`. -/
def existingActive (db : List ClientBeneficiary) (b : ClientBeneficiary) :
    List ClientBeneficiary :=
  (db.filter fun r => r.client_plan == b.client_plan && r.is_active).filter
    fun r => r.pk != b.pk

/-- `ClientBeneficiary.objects.filter(client_plan=self.client_plan,
is_primary=True, is_active=True).exclude(pk=self.pk)`. -/
def existingActivePrimary (db : List ClientBeneficiary) (b : ClientBeneficiary) :
    List ClientBeneficiary :=
  (db.filter fun r => r.client_plan == b.client_plan && r.is_primary && r.is_active).filter
    fun r => r.pk != b.pk

/-- `ClientBeneficiary.clean` run against the current beneficiary table
`db`: raises the max-two-active error when the incoming record is active
and two other active beneficiaries of the plan exist, then the
unique-active-primary error when the incoming record is active and
primary and another active primary exists. -/
def ClientBeneficiary.clean (db : List ClientBeneficiary) (b : ClientBeneficiary) :
    Except String Unit :=
  if b.is_active = true ∧ 2 ≤ (existingActive db b).length then
    Except.error maxActiveMsg
  else if b.is_active = true ∧ b.is_primary = true ∧ 0 < (existingActivePrimary db b).length then
    Except.error uniquePrimaryMsg
  else
    Except.ok ()

/-- Number of active beneficiaries the plan of `b` would have after the
write of `b` commits: the existing actives other than `b` itself, plus
`b` when it is active. -/
def activeAfter (db : List ClientBeneficiary) (b : ClientBeneficiary) : Nat :=
  (existingActive db b).length + (if b.is_active then 1 else 0)

/-- Deactivation update: the same row written back with `is_active=False`. -/
def deactivate (b : ClientBeneficiary) : ClientBeneficiary :=
  { b with is_active := false }

/-- The `PlanPayment` model: a payment amount (in centavos) for a
(plan, period) pair, declared `unique_together`. -/
structure PlanPayment where
  payment_id : Nat
  plan : Nat
  period : Nat
  amount : Int
deriving DecidableEq, Repr

/-- Insert into the `client_plan` table enforcing the declared
`unique=True` constraint on `contract_no`: the storage layer rejects a
row whose `contract_no` duplicates an existing row. -/
def insertClientPlan (db : List ClientPlan) (cp : ClientPlan) :
    Except String (List ClientPlan) :=
  if db.any fun r => r.contract_no == cp.contract_no then
    Except.error "UNIQUE constraint failed: client_plan.contract_no"
  else
    Except.ok (db ++ [cp])

/-- Insert into the `plan_payment` table enforcing the declared
`unique_together = (plan, period)` constraint. -/
def insertPlanPayment (db : List PlanPayment) (p : PlanPayment) :
    Except String (List PlanPayment) :=
  if db.any fun r => r.plan == p.plan && r.period == p.period then
    Except.error "UNIQUE constraint failed: plan_payment.plan, plan_payment.period"
  else
    Except.ok (db ++ [p])

/-- The `ClientPlanReinstatement` history row. -/
structure ClientPlanReinstatement where
  client_plan : Nat
  reinstatement_date : Nat
  previous_effective_date : Nat
  new_effective_date : Nat
  remarks : Option String
deriving DecidableEq, Repr

/-- The `ClientPlanLapse` history row. -/
structure ClientPlanLapse where
  client_plan : Nat
  lapse_date : Nat
  reason : Option String
deriving DecidableEq, Repr

/-- The `ClientPlanTransfer` history row. -/
structure ClientPlanTransfer where
  from_client_plan : Nat
  to_client : Nat
  transfer_date : Nat
  reason : Option String
deriving DecidableEq, Repr

/-- The ledger state relevant to the lifecycle claims: the plan table
and the three lifecycle-event tables. -/
structure LedgerDB where
  plans : List ClientPlan
  lapses : List ClientPlanLapse
  reinstatements : List ClientPlanReinstatement
  transfers : List ClientPlanTransfer
deriving DecidableEq, Repr

/-- Modelled from the spec: lifecycle-event rows are append-only
immutable history, so the only operation on the `client_plan_lapse`
table is appending a new row; the model layer defines no save hook or
signal, so no other table is touched. -/
def appendLapse (db : LedgerDB) (e : ClientPlanLapse) : LedgerDB :=
  { db with lapses := db.lapses ++ [e] }

/-- Modelled from the spec: append a `client_plan_reinstatement` row. -/
def appendReinstatement (db : LedgerDB) (e : ClientPlanReinstatement) : LedgerDB :=
  { db with reinstatements := db.reinstatements ++ [e] }

/-- Modelled from the spec: append a `client_plan_transfer` row. -/
def appendTransfer (db : LedgerDB) (e : ClientPlanTransfer) : LedgerDB :=
  { db with transfers := db.transfers ++ [e] }

/-- Sample beneficiary used in concrete scenarios. -/
def benSample (pk plan : Nat) (primary active : Bool) : ClientBeneficiary :=
  { pk := pk
    client_plan := plan
    first_name := "Ana"
    middle_name := none
    last_name := "Reyes"
    full_name := "Ana Reyes"
    birth_date := 0
    gender := "F"
    age := none
    is_primary := primary
    is_active := active }

/-- Whether a character list contains two consecutive spaces. -/
def doubleSpaceIn : List Char → Bool
  | a :: b :: rest => (a == ' ' && b == ' ') || doubleSpaceIn (b :: rest)
  | _ => false

/-- Sample client with an empty (but present) middle name. -/
def juanClient : Client :=
  { client_id := 1
    first_name := "Juan"
    middle_name := some ""
    last_name := "Dela Cruz"
    full_name := ""
    birth_date := 0
    gender := "M"
    is_active := true }

/-- C3: `is_contestable` is a pure derived predicate, equal to
`months_paid_continuously < contestability_months` and a function of
those two stored fields only (it is computed, never stored); with
months_paid_continuously=5 and contestability_months=10 it is true, and
with 10 and 10 it is false. -/
theorem is_contestable_pure_derived :
    (∀ cp : ClientPlan,
      cp.is_contestable = decide (cp.months_paid_continuously < cp.contestability_months)) ∧
    ({ mkClientPlan 1 1 "CN-001" 0 0 with
        months_paid_continuously := 5, contestability_months := 10 } : ClientPlan).is_contestable
      = true ∧
    ({ mkClientPlan 1 1 "CN-001" 0 0 with
        months_paid_continuously := 10, contestability_months := 10 } : ClientPlan).is_contestable
      = false :=
  ⟨fun _ => rfl, by decide, by decide⟩

/-- C4: every save of a Client, Personnel or ClientBeneficiary
recomputes `full_name` as the single-space join of first name, optional
middle name and last name, omitting an empty middle name; for
first_name="Juan", middle_name="", last_name="Dela Cruz" the result is
"Juan Dela Cruz" with no double space. -/
theorem save_recomputes_full_name :
    (∀ first middle last, personFullName first middle last = specFullName first middle last) ∧
    (∀ c : Client, (Client.save c).full_name = specFullName c.first_name c.middle_name c.last_name) ∧
    (∀ p : Personnel,
      (Personnel.save p).full_name = specFullName p.first_name p.middle_name p.last_name) ∧
    (∀ b : ClientBeneficiary,
      (ClientBeneficiary.save b).full_name = specFullName b.first_name b.middle_name b.last_name) ∧
    (Client.save juanClient).full_name = "Juan Dela Cruz" ∧
    doubleSpaceIn (Client.save juanClient).full_name.data = false := by
  have key : ∀ first middle last,
      personFullName first middle last = specFullName first middle last := by
    intro first middle last
    cases middle with
    | none => simp [personFullName, specFullName, nameParts, truthyStr, joinSpace]
    | some m =>
      by_cases hm : m = ""
      · simp [personFullName, specFullName, nameParts, truthyStr, joinSpace, hm]
      · simp [personFullName, specFullName, nameParts, truthyStr, joinSpace, hm,
          String.append_assoc]
  refine ⟨key, fun c => key _ _ _, fun p => key _ _ _, fun b => key _ _ _, ?_, ?_⟩
  · rfl
  · decide

/-- C5: the full-name derivation is idempotent: saving twice with
unchanged name parts yields exactly the record produced by saving once,
for each of the three person-like models. -/
theorem save_idempotent :
    (∀ c : Client, Client.save (Client.save c) = Client.save c) ∧
    (∀ p : Personnel, Personnel.save (Personnel.save p) = Personnel.save p) ∧
    (∀ b : ClientBeneficiary, ClientBeneficiary.save (ClientBeneficiary.save b)
      = ClientBeneficiary.save b) :=
  ⟨fun _ => rfl, fun _ => rfl, fun _ => rfl⟩

/-- C6: a newly created ClientPlan has status "active", and every
ClientPlanStatus value is one of the seven declared choices. -/
theorem client_plan_status_default_and_domain :
    (∀ id client contract application effective,
      (mkClientPlan id client contract application effective).status = ClientPlanStatus.active) ∧
    (∀ s : ClientPlanStatus,
      s.value ∈ ["active", "lapsed", "reinstated", "transferred",
        "assigned", "cancelled", "completed"]) :=
  ⟨fun _ _ _ _ _ => rfl, fun s => by cases s <;> simp [ClientPlanStatus.value]⟩

/-- C8: appending a lifecycle-event row (lapse, reinstatement or
transfer) leaves the plan table — and hence every plan's status —
untouched, and extends the event table so that all previously written
rows are preserved unchanged in place. -/
theorem lifecycle_events_append_only :
    (∀ db e, (appendLapse db e).plans = db.plans ∧
      ∃ t, (appendLapse db e).lapses = db.lapses ++ t) ∧
    (∀ db e, (appendReinstatement db e).plans = db.plans ∧
      ∃ t, (appendReinstatement db e).reinstatements = db.reinstatements ++ t) ∧
    (∀ db e, (appendTransfer db e).plans = db.plans ∧
      ∃ t, (appendTransfer db e).transfers = db.transfers ++ t) :=
  ⟨fun _ e => ⟨rfl, [e], rfl⟩, fun _ e => ⟨rfl, [e], rfl⟩, fun _ e => ⟨rfl, [e], rfl⟩⟩

/-- C9: validation is skipped entirely for an inactive incoming record:
whatever the current beneficiary table holds, `clean` succeeds whenever
the record being written has is_active=False. -/
theorem clean_skips_inactive (db : List ClientBeneficiary) (b : ClientBeneficiary)
    (h : b.is_active = false) : ClientBeneficiary.clean db b = Except.ok () := by
  unfold ClientBeneficiary.clean
  rw [if_neg, if_neg] <;> simp [h]

/-- C9 witness: a deactivation write passes `clean` even when its plan
already has three active beneficiaries, two of them primary. -/
theorem clean_skips_inactive_witness :
    ClientBeneficiary.clean
      [benSample 1 7 true true, benSample 2 7 false true, benSample 3 7 true true]
      (benSample 4 7 true false) = Except.ok () :=
  clean_skips_inactive _ _ rfl

/-- C1: a beneficiary write fails with the max-two-active message
exactly when the incoming record is active and its commit would push
the plan past 2 active beneficiaries; any write leaving the active
count at 2 or below never produces this error. -/
theorem clean_max_two_active (db : List ClientBeneficiary) (b : ClientBeneficiary) :
    ClientBeneficiary.clean db b = Except.error maxActiveMsg ↔
      b.is_active = true ∧ 2 < activeAfter db b := by
  constructor
  · intro h
    unfold ClientBeneficiary.clean at h
    split_ifs at h with h1 h2
    · have h2 := h1.2
      exact ⟨h1.1, by simp [activeAfter, h1.1]; omega⟩
    · exact absurd (Except.error.inj h) (by decide)
  · rintro ⟨hA, hlt⟩
    have hn : 2 ≤ (existingActive db b).length := by
      simp [activeAfter, hA] at hlt
      omega
    unfold ClientBeneficiary.clean
    rw [if_pos ⟨hA, hn⟩]

/-- C2 counterexample: plan 7 already has an active primary and an
active non-primary beneficiary; a further active-and-primary write —
for which another active primary (excluding self) exists — fails with
the max-two-active message, not the unique-primary message the claim
asserts. -/
theorem clean_unique_primary_counterexample :
    ((benSample 3 7 true true).is_active = true ∧
      (benSample 3 7 true true).is_primary = true ∧
      0 < (existingActivePrimary [benSample 1 7 true true, benSample 2 7 false true]
        (benSample 3 7 true true)).length) ∧
    ClientBeneficiary.clean [benSample 1 7 true true, benSample 2 7 false true]
      (benSample 3 7 true true) = Except.error maxActiveMsg ∧
    ClientBeneficiary.clean [benSample 1 7 true true, benSample 2 7 false true]
      (benSample 3 7 true true) ≠ Except.error uniquePrimaryMsg := by
  refine ⟨by decide, rfl, fun h => ?_⟩
  have h2 : ClientBeneficiary.clean [benSample 1 7 true true, benSample 2 7 false true]
      (benSample 3 7 true true) = Except.error maxActiveMsg := rfl
  rw [h2] at h
  exact absurd (Except.error.inj h) (by decide)

/-- C2 (amended): an active-and-primary write for a plan that already
has another active primary beneficiary (excluding self) always fails
with a ValidationFailure; the message is the unique-primary one
whenever the plan has fewer than two other active beneficiaries
(otherwise the max-two-active check fires first). In the canonical pair
scenario the second active-primary write fails with the unique-primary
message, deactivating the first beneficiary passes validation, and a
second active-primary write then succeeds. -/
theorem clean_unique_active_primary (db : List ClientBeneficiary) (b : ClientBeneficiary)
    (hA : b.is_active = true) (hP : b.is_primary = true)
    (hEx : 0 < (existingActivePrimary db b).length) :
    (∃ m, ClientBeneficiary.clean db b = Except.error m) ∧
    ((existingActive db b).length < 2 →
      ClientBeneficiary.clean db b = Except.error uniquePrimaryMsg) ∧
    ClientBeneficiary.clean [benSample 1 7 true true] (benSample 2 7 true true)
      = Except.error uniquePrimaryMsg ∧
    ClientBeneficiary.clean [benSample 1 7 true true] (deactivate (benSample 1 7 true true))
      = Except.ok () ∧
    ClientBeneficiary.clean [deactivate (benSample 1 7 true true)] (benSample 2 7 true true)
      = Except.ok () := by
  refine ⟨?_, ?_, rfl, rfl, rfl⟩
  · unfold ClientBeneficiary.clean
    split_ifs with h1 h2
    · exact ⟨_, rfl⟩
    · exact ⟨_, rfl⟩
    · exact absurd ⟨hA, hP, hEx⟩ h2
  · intro hlt
    unfold ClientBeneficiary.clean
    rw [if_neg fun hcon => absurd hcon.2 (by omega), if_pos ⟨hA, hP, hEx⟩]

/-- C2 witness: the amended theorem applied to the canonical pair
scenario, one existing active primary beneficiary on the plan. -/
theorem clean_unique_active_primary_witness :
    (∃ m, ClientBeneficiary.clean [benSample 1 7 true true] (benSample 2 7 true true)
      = Except.error m) ∧
    ((existingActive [benSample 1 7 true true] (benSample 2 7 true true)).length < 2 →
      ClientBeneficiary.clean [benSample 1 7 true true] (benSample 2 7 true true)
        = Except.error uniquePrimaryMsg) ∧
    ClientBeneficiary.clean [benSample 1 7 true true] (benSample 2 7 true true)
      = Except.error uniquePrimaryMsg ∧
    ClientBeneficiary.clean [benSample 1 7 true true] (deactivate (benSample 1 7 true true))
      = Except.ok () ∧
    ClientBeneficiary.clean [deactivate (benSample 1 7 true true)] (benSample 2 7 true true)
      = Except.ok () :=
  clean_unique_active_primary [benSample 1 7 true true] (benSample 2 7 true true)
    rfl rfl (by decide)

/-- C7: after a ClientPlan row is inserted, inserting another row with
the same contract_no fails the declared uniqueness constraint; after a
PlanPayment row is inserted, inserting another row for the same
(plan, period) pair fails the declared unique_together constraint. -/
theorem unique_contract_no_and_plan_period :
    (∀ db cp1 cp2 db1, insertClientPlan db cp1 = Except.ok db1 →
      cp2.contract_no = cp1.contract_no → (insertClientPlan db1 cp2).isOk = false) ∧
    (∀ db p1 p2 db1, insertPlanPayment db p1 = Except.ok db1 →
      p2.plan = p1.plan → p2.period = p1.period → (insertPlanPayment db1 p2).isOk = false) := by
  constructor
  · intro db cp1 cp2 db1 hok hcn
    unfold insertClientPlan at hok ⊢
    split_ifs at hok with h1
    have hdb : db1 = db ++ [cp1] := (Except.ok.inj hok).symm
    subst hdb
    rw [if_pos]
    · rfl
    · simp [hcn]
  · intro db p1 p2 db1 hok hpl hpe
    unfold insertPlanPayment at hok ⊢
    split_ifs at hok with h1
    have hdb : db1 = db ++ [p1] := (Except.ok.inj hok).symm
    subst hdb
    rw [if_pos]
    · rfl
    · simp [hpl, hpe]

/-- C7 witness: a duplicate contract number and a duplicate
(plan, period) payment are both rejected on concrete tables. -/
theorem unique_contract_no_and_plan_period_witness :
    (insertClientPlan [mkClientPlan 1 1 "CN-001" 0 0] (mkClientPlan 2 2 "CN-001" 1 2)).isOk
      = false ∧
    (insertPlanPayment [⟨1, 1, 1, 100⟩] ⟨2, 1, 1, 200⟩).isOk = false :=
  ⟨unique_contract_no_and_plan_period.1 [] (mkClientPlan 1 1 "CN-001" 0 0)
      (mkClientPlan 2 2 "CN-001" 1 2) [mkClientPlan 1 1 "CN-001" 0 0] rfl rfl,
    unique_contract_no_and_plan_period.2 [] ⟨1, 1, 1, 100⟩ ⟨2, 1, 1, 200⟩
      [⟨1, 1, 1, 100⟩] rfl rfl rfl⟩

/-- C10: a beneficiary built with the declared defaults is primary and
active, so it immediately occupies the active-primary slot of its plan,
and a second default-flag beneficiary for the same plan fails the
unique-primary validation. -/
theorem default_flags_make_active_primary
    (pk1 pk2 plan : Nat) (f1 f2 l1 l2 : String) (m1 m2 : Option String) (d1 d2 : Nat)
    (hpk : pk1 ≠ pk2) :
    (mkClientBeneficiary pk1 plan f1 m1 l1 d1).is_primary = true ∧
    (mkClientBeneficiary pk1 plan f1 m1 l1 d1).is_active = true ∧
    ClientBeneficiary.clean [mkClientBeneficiary pk1 plan f1 m1 l1 d1]
      (mkClientBeneficiary pk2 plan f2 m2 l2 d2) = Except.error uniquePrimaryMsg := by
  refine ⟨rfl, rfl, ?_⟩
  simp [ClientBeneficiary.clean, existingActive, existingActivePrimary,
    mkClientBeneficiary, hpk]

/-- C10 witness: two default-flag beneficiaries of plan 7 with distinct
primary keys — the second write is rejected. -/
theorem default_flags_make_active_primary_witness :
    (mkClientBeneficiary 1 7 "Ana" none "Reyes" 0).is_primary = true ∧
    (mkClientBeneficiary 1 7 "Ana" none "Reyes" 0).is_active = true ∧
    ClientBeneficiary.clean [mkClientBeneficiary 1 7 "Ana" none "Reyes" 0]
      (mkClientBeneficiary 2 7 "Ben" none "Reyes" 0) = Except.error uniquePrimaryMsg :=
  default_flags_make_active_primary 1 2 7 "Ana" "Ben" "Reyes" "Reyes" none none 0 0
    (by decide)

end HJV
